import Mathlib

/-!
Verification of the Quantum Travel AI backend (backend/main.py):
a shallow embedding of the conversation-store, connection-manager,
chat-endpoint and WebSocket-endpoint logic, with theorems settling the
specification's claims about them.

Conventions of the embedding:
* Python dicts are association lists `List (String × α)` in insertion
  order; `d[k] = v` keeps the position of an existing key and appends a
  new key at the end, `del d[k]` removes the entry, lookups scan in order.
* `datetime.utcnow()` readings are external inputs, modelled as strings
  supplied by the caller (a `ChatClock` for the chat handler, per-frame
  strings for the WebSocket handler).
* `await` suspension points carry no state of their own and are dropped.
* Exceptions are modelled with `Except`; the chat handler's
  `except Exception` / `HTTPException(500, detail)` becomes an
  `Except HTTPException` result.
-/

namespace QuantumTravelAI

/-- Python dict lookup `d.get(k)` / `k in d` over an insertion-ordered
association list. -/
def dictFind {α : Type} : List (String × α) → String → Option α
  | [], _ => none
  | p :: rest, k => if p.1 = k then some p.2 else dictFind rest k

/-- In-place mutation of the value stored under a key, as in
`d[k].append(x)`: the entry keeps its position, its value becomes `f v`. -/
def dictModify {α : Type} (d : List (String × α)) (k : String) (f : α → α) :
    List (String × α) :=
  d.map (fun p => if p.1 = k then (p.1, f p.2) else p)

/-- Python dict assignment `d[k] = v`: overwrite in place when the key is
present, append at the end when it is absent. -/
def dictInsert {α : Type} (d : List (String × α)) (k : String) (v : α) :
    List (String × α) :=
  if (dictFind d k).isSome then dictModify d k (fun _ => v) else d ++ [(k, v)]

/-- Python `del d[k]` (used only under a `k in d` guard, so removing
nothing when the key is absent is faithful). -/
def dictRemove {α : Type} (d : List (String × α)) (k : String) :
    List (String × α) :=
  d.filter (fun p => decide (p.1 ≠ k))

/-- Chat message record as stored in `conversation_history`: a dict
`{"role": ..., "content": ..., "timestamp": ...}`. -/
structure Message where
  role : String
  content : String
  timestamp : String
deriving DecidableEq

/-- ChatRequest body of `POST /api/chat`. The source also declares
`temperature` and `max_tokens` fields; the handler never reads them, so
they are not part of the embedding. `model` defaults to `"quantum-ai"`
in the source; callers of the embedding pass it explicitly. -/
structure ChatRequest where
  message : String
  conversation_id : Option String
  model : String
deriving DecidableEq

/-- ChatResponse body returned by `POST /api/chat`. -/
structure ChatResponse where
  response : String
  conversation_id : String
  model : String
  timestamp : String
  tokens_used : Nat
deriving DecidableEq

/-- AI model information record from `supported_models`. -/
structure ModelInfo where
  name : String
  description : String
  capabilities : List String
  version : String
  status : String
deriving DecidableEq

/-- The `HTTPException(status_code=500, detail=str(e))` raised by the
chat handler on an internal error. -/
structure HTTPException where
  status_code : Nat
  detail : String
deriving DecidableEq

/-- Global `conversation_history: Dict[str, List[Dict]]`. -/
abbrev ConversationHistory := List (String × List Message)

/-- `ConnectionManager.active_connections: Dict[str, WebSocket]`; the
WebSocket objects themselves are opaque, modelled as `Nat` handles. -/
abbrev Registry := List (String × Nat)

/-- Static `supported_models` table keyed by model identifier. -/
def supported_models : List (String × ModelInfo) :=
  [("quantum-ai",
    { name := "Quantum AI",
      description := "Advanced quantum-enhanced AI model with superior reasoning",
      capabilities :=
        ["Natural language understanding",
         "Code generation and analysis",
         "Mathematical computations",
         "Multi-language support",
         "Context-aware responses",
         "Real-time information retrieval"],
      version := "1.0.0",
      status := "active" }),
   ("quantum-pro",
    { name := "Quantum Pro",
      description := "Professional-grade AI with enhanced capabilities",
      capabilities :=
        ["All Quantum AI features",
         "Advanced data analysis",
         "Document processing",
         "Image understanding",
         "Complex reasoning",
         "Custom plugin support"],
      version := "1.0.0",
      status := "active" })]

/-- Python substring test `needle in haystack` on strings. -/
def strContains (haystack needle : String) : Bool :=
  (List.range (haystack.length + 1)).any
    (fun i => needle.data.isPrefixOf (haystack.data.drop i))

/-- Python `message.lower()`; the handler only matches ASCII keywords, so
ASCII case folding is the relevant behaviour. -/
def strLower (s : String) : String := s.map Char.toLower

/-- Characters Python `str.split()` (no separator) treats as whitespace. -/
def pyIsSpace (c : Char) : Bool :=
  c == ' ' || c == '\t' || c == '\n' || c == '\r' || c == '\x0b' || c == '\x0c'

/-- Accumulator worker for `pySplit`. -/
def pySplitAux : List Char → List Char → List String
  | [], [] => []
  | [], acc => [String.mk acc.reverse]
  | c :: cs, acc =>
    if pyIsSpace c then
      match acc with
      | [] => pySplitAux cs []
      | _ :: _ => String.mk acc.reverse :: pySplitAux cs []
    else pySplitAux cs (c :: acc)

/-- Python `s.split()` with no separator: maximal runs of non-whitespace
characters, no empty tokens. -/
def pySplit (s : String) : List String := pySplitAux s.data []

/-- AIEngine.generate_response: keyword-bucket matching on the lowercased
message. The `model` and `context` parameters are accepted (the HTTP
handler passes the conversation history as `context`, the WebSocket
handler leaves it at its `None` default) but the body never reads
either. The `asyncio.sleep(0.5)` delay carries no state and is dropped. -/
def generate_response (message : String) (model : String)
    (context : Option (List Message)) : String :=
  let message_lower := strLower message
  if ["hello", "hi", "hey", "greetings"].any
      (fun greeting => strContains message_lower greeting) then
    "Hello! I\x27m Quantum Travel AI, your advanced AI assistant. How can I help you today? I can assist with coding, problem-solving, data analysis, and much more!"
  else if ["code", "program", "function", "python", "javascript"].any
      (fun word => strContains message_lower word) then
    "I can help you with coding! Here\x27s an example of what I can do:\n\n```python\ndef quantum_algorithm(data):\n    \x27\x27\x27\n    Advanced algorithm with quantum-inspired optimization\n    \x27\x27\x27\n    result = []\n    for item in data:\n        processed = item ** 2  # Example processing\n        result.append(processed)\n    return result\n\n# Usage\ndata = [1, 2, 3, 4, 5]\noutput = quantum_algorithm(data)\nprint(output)  # [1, 4, 9, 16, 25]\n```\n\nWould you like me to explain this code or help with a specific programming task?"
  else if ["calculate", "math", "equation", "solve"].any
      (fun word => strContains message_lower word) then
    "I can help with mathematical computations! Here\x27s an example:\n\n**Problem**: Solve for x: 2x + 5 = 15\n\n**Solution**:\n1. Subtract 5 from both sides: 2x = 10\n2. Divide both sides by 2: x = 5\n\n**Answer**: x = 5\n\nI can handle complex equations, calculus, linear algebra, statistics, and more. What would you like to calculate?"
  else if ["what", "how", "why", "explain"].any
      (fun word => strContains message_lower word) then
    "Great question! As Quantum Travel AI, I\x27m designed to provide comprehensive answers.\n\nBased on your query: \"" ++ message ++ "\"\n\nI can help you understand complex concepts through:\n- Detailed explanations with examples\n- Step-by-step breakdowns\n- Visual representations\n- Real-world applications\n- Related resources and references\n\nCould you provide more specific details about what you\x27d like to know? This will help me give you a more targeted and useful response."
  else if ["features", "capabilities", "can you", "abilities"].any
      (fun word => strContains message_lower word) then
    "Here\x27s what I can do as Quantum Travel AI:\n\n🚀 **Core Capabilities**:\n- Natural language conversations\n- Code generation and debugging\n- Mathematical problem solving\n- Data analysis and visualization\n- Multi-language support\n- Real-time information retrieval\n\n💡 **Advanced Features**:\n- Context-aware responses\n- File processing (documents, images)\n- Web search integration\n- Collaborative features\n- Custom plugin support\n\n🌐 **Global Support**:\n- Available 24/7\n- Multi-language understanding\n- Cultural context awareness\n\nHow can I assist you specifically?"
  else
    "Thank you for your message! I\x27m Quantum Travel AI, and I\x27m here to help.\n\nYou said: \"" ++ message ++ "\"\n\nI understand you\x27re looking for assistance. I can help with:\n- **Technical Questions**: Programming, algorithms, system design\n- **Problem Solving**: Mathematical, logical, analytical challenges\n- **Information**: Explanations, research, data analysis\n- **Creative Tasks**: Writing, brainstorming, content creation\n\nPlease feel free to ask me anything specific, and I\x27ll provide detailed, helpful responses tailored to your needs!"

/-- Successive `datetime.utcnow()` readings taken during one chat
request, in source order: id generation, user-message timestamp,
assistant-message timestamp, response-envelope timestamp. -/
structure ChatClock where
  idTs : String
  userTs : String
  assistantTs : String
  responseTs : String
deriving DecidableEq

/-- Python `request.conversation_id or f"conv_{datetime.utcnow().timestamp()}"`:
`None` and the empty string are both falsy, so either triggers
generation of a fresh `conv_` id from the current timestamp (here an
input, already rendered to its string form). -/
def resolveConversationId (req : ChatRequest) (idTs : String) : String :=
  match req.conversation_id with
  | some cid => if cid = "" then "conv_" ++ idTs else cid
  | none => "conv_" ++ idTs

/-- Lazy creation step `if conversation_id not in conversation_history:
conversation_history[conversation_id] = []`. -/
def historySetEmpty (store : ConversationHistory) (cid : String) :
    ConversationHistory :=
  if (dictFind store cid).isSome then store else dictInsert store cid []

/-- Append step `conversation_history[conversation_id].append(m)`. -/
def historyAppend (store : ConversationHistory) (cid : String) (m : Message) :
    ConversationHistory :=
  dictModify store cid (fun h => h ++ [m])

/-- Body of `POST /api/chat`, parametrised by the response generator so
that generator failure (any exception escaping the `try`) is expressible:
generate/resolve the conversation id, lazily create the record, append
the user message, invoke the generator on the now-current history, and
on success append the assistant message and build the envelope; on
failure return the `HTTPException(500, detail)` with the store as it
stands (no rollback). -/
def chatCore (gen : String → String → List Message → Except String String)
    (store : ConversationHistory) (req : ChatRequest) (clk : ChatClock) :
    Except HTTPException ChatResponse × ConversationHistory :=
  let conversation_id := resolveConversationId req clk.idTs
  let store1 := historySetEmpty store conversation_id
  let store2 := historyAppend store1 conversation_id
    { role := "user", content := req.message, timestamp := clk.userTs }
  match gen req.message req.model ((dictFind store2 conversation_id).getD []) with
  | Except.error e => (Except.error { status_code := 500, detail := e }, store2)
  | Except.ok ai_response =>
    (Except.ok
      { response := ai_response,
        conversation_id := conversation_id,
        model := req.model,
        timestamp := clk.responseTs,
        tokens_used := (pySplit req.message).length + (pySplit ai_response).length },
     historyAppend store2 conversation_id
       { role := "assistant", content := ai_response, timestamp := clk.assistantTs })

/-- The deployed `POST /api/chat` handler: `chatCore` with the actual
(total) `AIEngine.generate_response`, which receives the conversation
history as its context argument. -/
def chat (store : ConversationHistory) (req : ChatRequest) (clk : ChatClock) :
    Except HTTPException ChatResponse × ConversationHistory :=
  chatCore (fun m mo ctx => Except.ok (generate_response m mo (some ctx)))
    store req clk

/-- Response of `GET /api/history/{conversation_id}` together with the
HTTP status it is served with (the handler always returns a plain dict,
hence 200). -/
structure HistoryResponse where
  status_code : Nat
  conversation_id : String
  messages : List Message
deriving DecidableEq

/-- Handler of `GET /api/history/{conversation_id}`. -/
def get_history (store : ConversationHistory) (conversation_id : String) :
    HistoryResponse :=
  match dictFind store conversation_id with
  | some msgs =>
    { status_code := 200, conversation_id := conversation_id, messages := msgs }
  | none =>
    { status_code := 200, conversation_id := conversation_id, messages := [] }

/-- ConnectionManager.connect: accept the handshake (a channel-level
side effect with no registry state) and store `client_id -> websocket`,
silently overwriting any previous entry for the same id. -/
def connect (reg : Registry) (websocket : Nat) (client_id : String) : Registry :=
  dictInsert reg client_id websocket

/-- ConnectionManager.disconnect: remove the entry if present; a no-op
when the id is absent. -/
def disconnect (reg : Registry) (client_id : String) : Registry :=
  dictRemove reg client_id

/-- One pass of `ConnectionManager.broadcast`'s loop over the dict's
values. `send_text` may raise (the peer disconnected mid-broadcast);
which channels fail is environmental, supplied as the `sendFails`
predicate. The result is the list of (channel, payload) deliveries that
happened, paired with the first channel whose send raised, if any; the
loop body does not catch, so a raise abandons the remaining channels. -/
def sendAll (conns : List Nat) (sendFails : Nat → Bool) (message : String) :
    List (Nat × String) × Option Nat :=
  match conns with
  | [] => ([], none)
  | ws :: rest =>
    if sendFails ws then ([], some ws)
    else
      let r := sendAll rest sendFails message
      ((ws, message) :: r.1, r.2)

/-- ConnectionManager.broadcast: iterate `active_connections.values()`
in registration order, awaiting `send_text` on each. -/
def broadcast (reg : Registry) (sendFails : Nat → Bool) (message : String) :
    List (Nat × String) × Option Nat :=
  sendAll (reg.map (fun p => p.2)) sendFails message

/-- One inbound event of the WebSocket loop, as seen at the
`receive_text` / `json.loads` boundary: a frame that parsed to a JSON
object (with its optional `message` and `model` members), a frame on
which `json.loads` or the subsequent attribute access raised, or a
`WebSocketDisconnect` raised by `receive_text`. -/
inductive Frame
  | valid (message : Option String) (model : Option String)
  | malformed
  | disconnected
deriving DecidableEq

/-- Frames that reach the generation step of the WebSocket loop. -/
def isDataFrame : Frame → Bool
  | Frame.valid _ _ => true
  | Frame.malformed => false
  | Frame.disconnected => false

/-- Outbound WebSocket events produced via `manager.send_message`. -/
inductive WsEvent
  | connectionAck (client_id : String) (timestamp : String)
  | reply (message : String) (model : String) (timestamp : String)
deriving DecidableEq

/-- State observable after running the WebSocket handler on a finite
trace of inbound events: the connection registry, the conversation
store, the events sent to the client, and whether the receive loop has
exited (`loopExited = false` means the handler is still parked waiting
for the next frame). -/
structure WsOutcome where
  registry : Registry
  store : ConversationHistory
  sent : List WsEvent
  loopExited : Bool
deriving DecidableEq

/-- ConnectionManager.send_message: deliver only if the client id is
currently registered, silently drop otherwise. -/
def send_message (reg : Registry) (ev : WsEvent) (client_id : String) :
    List WsEvent :=
  if (dictFind reg client_id).isSome then [ev] else []

/-- The `while True` receive loop of `websocket_endpoint`, one recursion
step per inbound event (each paired with the `utcnow()` reading used for
its reply). A valid frame takes the defaults `message_data.get("message", "")`
and `message_data.get("model", "quantum-ai")`, generates a reply (context
left at `None`) and sends it back; a frame whose parse raises, like a
transport disconnect, escapes the loop into the handler's `except`
clauses, both of which call `manager.disconnect(client_id)` and end the
handler. Nothing in the loop touches `conversation_history`. -/
def wsLoop (reg : Registry) (store : ConversationHistory) (client_id : String)
    (frames : List (Frame × String)) : WsOutcome :=
  match frames with
  | [] => { registry := reg, store := store, sent := [], loopExited := false }
  | (f, ts) :: rest =>
    match f with
    | Frame.valid msg mo =>
      let user_message := msg.getD ""
      let model := mo.getD "quantum-ai"
      let ai_response := generate_response user_message model none
      let out := send_message reg (WsEvent.reply ai_response model ts) client_id
      let r := wsLoop reg store client_id rest
      { r with sent := out ++ r.sent }
    | Frame.malformed =>
      { registry := disconnect reg client_id, store := store, sent := [],
        loopExited := true }
    | Frame.disconnected =>
      { registry := disconnect reg client_id, store := store, sent := [],
        loopExited := true }

/-- Handler of `/ws/{client_id}`: register the connection, send the
connection-acknowledged event, then run the receive loop on the inbound
trace. -/
def websocket_endpoint (reg : Registry) (store : ConversationHistory)
    (client_id : String) (websocket : Nat) (ackTs : String)
    (frames : List (Frame × String)) : WsOutcome :=
  let reg1 := connect reg websocket client_id
  let ack := send_message reg1 (WsEvent.connectionAck client_id ackTs) client_id
  let r := wsLoop reg1 store client_id frames
  { r with sent := ack ++ r.sent }

/-- Response of `GET /api/health`. -/
structure HealthResponse where
  status : String
  service : String
  version : String
  timestamp : String
  active_connections : Nat
deriving DecidableEq

/-- Handler of `GET /api/health`: reads the registry size, writes nothing. -/
def health_check (reg : Registry) (ts : String) : HealthResponse :=
  { status := "healthy", service := "Quantum Travel AI", version := "1.0.0",
    timestamp := ts, active_connections := reg.length }

/-- Response of `GET /api/stats`. -/
structure StatsResponse where
  total_conversations : Nat
  active_connections : Nat
  supportedModelCount : Nat
  uptime : String
  version : String
deriving DecidableEq

/-- Handler of `GET /api/stats`: reads sizes of the three tables, writes
nothing. -/
def get_stats (store : ConversationHistory) (reg : Registry) : StatsResponse :=
  { total_conversations := store.length, active_connections := reg.length,
    supportedModelCount := supported_models.length,
    uptime := "operational", version := "1.0.0" }

/-- One operation of the system as it acts on the conversation store:
a chat request (with an arbitrary generator outcome, covering both the
success and the failure path), a history read, a full WebSocket session,
a health check or a stats read. -/
inductive Op
  | chatOp (gen : String → String → List Message → Except String String)
      (req : ChatRequest) (clk : ChatClock)
  | historyOp (conversation_id : String)
  | wsOp (reg : Registry) (client_id : String) (websocket : Nat)
      (ackTs : String) (frames : List (Frame × String))
  | healthOp (reg : Registry) (ts : String)
  | statsOp (reg : Registry)

/-- Effect of one operation on the conversation store. The read-only
handlers return their envelopes elsewhere; here only the store they
leave behind matters. -/
def applyOp (store : ConversationHistory) : Op → ConversationHistory
  | Op.chatOp gen req clk => (chatCore gen store req clk).2
  | Op.historyOp _ => store
  | Op.wsOp reg cid ws ackTs frames =>
    (websocket_endpoint reg store cid ws ackTs frames).store
  | Op.healthOp _ _ => store
  | Op.statsOp _ => store

/-- Driver iterating `POST /api/chat` requests that all carry the same
caller-supplied conversation id: each call supplies its message text,
its model string and its clock readings. -/
def runChats (store : ConversationHistory) (cid : String)
    (calls : List (String × String × ChatClock)) : ConversationHistory :=
  match calls with
  | [] => store
  | (msg, mo, clk) :: rest =>
    runChats
      (chat store { message := msg, conversation_id := some cid, model := mo } clk).2
      cid rest

/-- Transcript the specification predicts for a sequence of chat calls on
one conversation: per call a user message carrying the request text then
an assistant message carrying the generated response, roles alternating.
This definition follows the claim's words (the spec side of the
refinement); the theorems compare it with what the code stores. -/
def specTranscript (calls : List (String × String × ChatClock)) : List Message :=
  match calls with
  | [] => []
  | (msg, mo, clk) :: rest =>
    { role := "user", content := msg, timestamp := clk.userTs } ::
    { role := "assistant", content := generate_response msg mo none,
      timestamp := clk.assistantTs } ::
    specTranscript rest

/-! Lemmas about the dict model. -/

theorem dictFind_concat_some {α : Type} {d : List (String × α)} {k : String}
    {v : α} (e : List (String × α)) (h : dictFind d k = some v) :
    dictFind (d ++ e) k = some v := by
  induction d with
  | nil => simp [dictFind] at h
  | cons p rest ih =>
    by_cases hp : p.1 = k
    · simp [dictFind, hp] at h ⊢
      exact h
    · simp only [dictFind, hp, if_false, List.cons_append] at h ⊢
      exact ih h

theorem dictFind_concat_none {α : Type} {d : List (String × α)} {k : String}
    (e : List (String × α)) (h : dictFind d k = none) :
    dictFind (d ++ e) k = dictFind e k := by
  induction d with
  | nil => rfl
  | cons p rest ih =>
    by_cases hp : p.1 = k
    · simp [dictFind, hp] at h
    · simp only [dictFind, hp, if_false] at h ⊢
      exact ih h

theorem dictFind_modify {α : Type} (d : List (String × α)) (k km : String)
    (f : α → α) :
    dictFind (dictModify d km f) k =
      (dictFind d k).map (fun v => if k = km then f v else v) := by
  induction d with
  | nil => rfl
  | cons p rest ih =>
    obtain ⟨pk, pv⟩ := p
    by_cases hm : pk = km
    · subst hm
      by_cases hp : pk = k
      · subst hp
        simp [dictModify, dictFind]
      · have hp2 : ¬ (k = pk) := fun hkk => hp hkk.symm
        simpa [dictModify, dictFind, hp, hp2] using ih
    · by_cases hp : pk = k
      · subst hp
        simp [dictModify, dictFind, hm, fun hkk => hm hkk]
      · simpa [dictModify, dictFind, hm, hp] using ih

theorem dictFind_insert_self {α : Type} (d : List (String × α)) (k : String)
    (v : α) :
    dictFind (dictInsert d k v) k = some v := by
  unfold dictInsert
  cases hfk : dictFind d k with
  | some w => simp [hfk, dictFind_modify]
  | none => simp [hfk, dictFind_concat_none _ hfk, dictFind]

theorem dictFind_remove_self {α : Type} (d : List (String × α)) (k : String) :
    dictFind (dictRemove d k) k = none := by
  induction d with
  | nil => rfl
  | cons p rest ih =>
    by_cases hp : p.1 = k
    · simpa [dictRemove, List.filter_cons, hp] using ih
    · simp only [dictRemove, List.filter_cons] at ih ⊢
      simpa [hp, dictFind] using ih

/-! Lemmas about the conversation store operations. -/

theorem dictFind_setEmpty_some {store : ConversationHistory} {cid : String}
    {msgs : List Message} (c : String) (h : dictFind store cid = some msgs) :
    dictFind (historySetEmpty store c) cid = some msgs := by
  unfold historySetEmpty dictInsert
  cases hfc : dictFind store c with
  | some v => simp [hfc, h]
  | none => simp [hfc, dictFind_concat_some _ h]

theorem dictFind_setEmpty_self (store : ConversationHistory) (c : String) :
    dictFind (historySetEmpty store c) c =
      some ((dictFind store c).getD []) := by
  unfold historySetEmpty dictInsert
  cases hfc : dictFind store c with
  | some v => simp [hfc]
  | none => simp [hfc, dictFind_concat_none _ hfc, dictFind]

theorem dictFind_historyAppend (store : ConversationHistory) (c cid : String)
    (m : Message) :
    dictFind (historyAppend store c m) cid =
      (dictFind store cid).map (fun h => if cid = c then h ++ [m] else h) :=
  dictFind_modify store cid c _

theorem get_history_messages (store : ConversationHistory) (cid : String) :
    (get_history store cid).messages = (dictFind store cid).getD [] := by
  cases h : dictFind store cid <;> simp [get_history, h]

/-! Lemmas about the handlers. -/

theorem generate_response_context_irrelevant (message model model2 : String)
    (context context2 : Option (List Message)) :
    generate_response message model context =
      generate_response message model2 context2 := rfl

theorem wsLoop_store (reg : Registry) (store : ConversationHistory)
    (client_id : String) (frames : List (Frame × String)) :
    (wsLoop reg store client_id frames).store = store := by
  induction frames with
  | nil => rfl
  | cons f rest ih =>
    obtain ⟨ff, ts⟩ := f
    cases ff with
    | valid msg mo => simpa [wsLoop] using ih
    | malformed => rfl
    | disconnected => rfl

theorem websocketEndpoint_store_aux (reg : Registry)
    (store : ConversationHistory) (client_id : String) (websocket : Nat)
    (ackTs : String) (frames : List (Frame × String)) :
    (websocket_endpoint reg store client_id websocket ackTs frames).store =
      store := by
  simp [websocket_endpoint, wsLoop_store]

theorem chat_step (store : ConversationHistory) (cid msg mo : String)
    (clk : ChatClock) (hcid : cid ≠ "") :
    dictFind
      (chat store { message := msg, conversation_id := some cid, model := mo }
        clk).2 cid =
      some ((dictFind store cid).getD [] ++
        [{ role := "user", content := msg, timestamp := clk.userTs },
         { role := "assistant", content := generate_response msg mo none,
           timestamp := clk.assistantTs }]) := by
  have hres :
      resolveConversationId
        { message := msg, conversation_id := some cid, model := mo } clk.idTs =
        cid := by
    simp [resolveConversationId, hcid]
  simp only [chat, chatCore, hres]
  rw [dictFind_historyAppend, dictFind_historyAppend, dictFind_setEmpty_self]
  simp [List.append_assoc]
  exact generate_response_context_irrelevant msg mo mo _ none

theorem specTranscript_length (calls : List (String × String × ChatClock)) :
    (specTranscript calls).length = 2 * calls.length := by
  induction calls with
  | nil => rfl
  | cons call rest ih =>
    obtain ⟨msg, mo, clk⟩ := call
    simp only [specTranscript, List.length_cons, ih]
    omega

theorem specTranscript_role (calls : List (String × String × ChatClock))
    (i : Nat) (h : i < 2 * calls.length) :
    ((specTranscript calls)[i]?).map Message.role =
      some (if i % 2 = 0 then "user" else "assistant") := by
  induction calls generalizing i with
  | nil => simp at h
  | cons call rest ih =>
    obtain ⟨msg, mo, clk⟩ := call
    rcases i with _ | _ | j
    · simp [specTranscript]
    · simp [specTranscript]
    · have hj : j < 2 * rest.length := by
        simp only [List.length_cons] at h
        omega
      have hmod : (j + 1 + 1) % 2 = j % 2 := by omega
      simp only [specTranscript, List.getElem?_cons_succ, hmod]
      exact ih j hj

theorem runChats_history (cid : String) (hcid : cid ≠ "")
    (calls : List (String × String × ChatClock))
    (store : ConversationHistory) :
    (dictFind (runChats store cid calls) cid).getD [] =
      (dictFind store cid).getD [] ++ specTranscript calls := by
  induction calls generalizing store with
  | nil => simp [runChats, specTranscript]
  | cons call rest ih =>
    obtain ⟨msg, mo, clk⟩ := call
    simp only [runChats, specTranscript]
    rw [ih, chat_step store cid msg mo clk hcid]
    simp [List.append_assoc]

theorem chatCore_store_extends
    (gen : String → String → List Message → Except String String)
    (store : ConversationHistory) (req : ChatRequest) (clk : ChatClock)
    (cid : String) (msgs : List Message)
    (h : dictFind store cid = some msgs) :
    ∃ tail, dictFind (chatCore gen store req clk).2 cid = some (msgs ++ tail) := by
  simp only [chatCore]
  have h1 := dictFind_setEmpty_some (resolveConversationId req clk.idTs) h
  have h2 :
      dictFind
        (historyAppend (historySetEmpty store (resolveConversationId req clk.idTs))
          (resolveConversationId req clk.idTs)
          { role := "user", content := req.message, timestamp := clk.userTs })
        cid =
        some (if cid = resolveConversationId req clk.idTs then
          msgs ++ [{ role := "user", content := req.message, timestamp := clk.userTs }]
        else msgs) := by
    rw [dictFind_historyAppend, h1]
    by_cases hc : cid = resolveConversationId req clk.idTs <;> simp [hc]
  cases hgen : gen req.message req.model
      ((dictFind
        (historyAppend (historySetEmpty store (resolveConversationId req clk.idTs))
          (resolveConversationId req clk.idTs)
          { role := "user", content := req.message, timestamp := clk.userTs })
        (resolveConversationId req clk.idTs)).getD []) with
  | error e =>
    by_cases hc : cid = resolveConversationId req clk.idTs
    · exact ⟨[{ role := "user", content := req.message, timestamp := clk.userTs }],
        by simp only [hgen]; rw [h2]; simp [hc]⟩
    · exact ⟨[], by simp only [hgen]; rw [h2]; simp [hc]⟩
  | ok r =>
    by_cases hc : cid = resolveConversationId req clk.idTs
    · refine ⟨[{ role := "user", content := req.message, timestamp := clk.userTs },
        { role := "assistant", content := r, timestamp := clk.assistantTs }], ?_⟩
      simp only [hgen]
      rw [dictFind_historyAppend, h2]
      simp [hc, List.append_assoc]
    · refine ⟨[], ?_⟩
      simp only [hgen]
      rw [dictFind_historyAppend, h2]
      simp [hc]

theorem sendAll_ok (conns : List Nat) (sendFails : Nat → Bool)
    (payload : String) (h : ∀ ws ∈ conns, sendFails ws = false) :
    sendAll conns sendFails payload =
      (conns.map (fun ws => (ws, payload)), none) := by
  induction conns with
  | nil => rfl
  | cons ws rest ih =>
    have hws := h ws (by simp)
    have hrest := ih (fun x hx => h x (by simp [hx]))
    simp [sendAll, hws, hrest]

theorem sendAll_failure (pre post : List Nat) (c : Nat)
    (sendFails : Nat → Bool) (payload : String)
    (hpre : ∀ ws ∈ pre, sendFails ws = false) (hc : sendFails c = true) :
    sendAll (pre ++ c :: post) sendFails payload =
      (pre.map (fun ws => (ws, payload)), some c) := by
  induction pre with
  | nil => simp [sendAll, hc]
  | cons ws rest ih =>
    have hws := hpre ws (by simp)
    have hrest := ih (fun x hx => hpre x (by simp [hx]))
    simp [sendAll, hws, hrest]

theorem wsLoop_malformed (reg : Registry) (store : ConversationHistory)
    (client_id : String) (hreg : (dictFind reg client_id).isSome = true)
    (pre rest : List (Frame × String)) (ts : String)
    (hpre : ∀ p ∈ pre, isDataFrame p.1 = true) :
    (wsLoop reg store client_id
        (pre ++ (Frame.malformed, ts) :: rest)).loopExited = true ∧
    (wsLoop reg store client_id
        (pre ++ (Frame.malformed, ts) :: rest)).registry =
      disconnect reg client_id ∧
    (wsLoop reg store client_id
        (pre ++ (Frame.malformed, ts) :: rest)).store = store ∧
    (wsLoop reg store client_id
        (pre ++ (Frame.malformed, ts) :: rest)).sent.length = pre.length := by
  induction pre with
  | nil => exact ⟨rfl, rfl, rfl, rfl⟩
  | cons p pre2 ih =>
    obtain ⟨f, fts⟩ := p
    have hf := hpre (f, fts) (by simp)
    have ihh := ih (fun x hx => hpre x (by simp [hx]))
    cases f with
    | valid msg mo =>
      simp only [List.cons_append, wsLoop, send_message, hreg, if_true]
      refine ⟨ihh.1, ihh.2.1, ihh.2.2.1, ?_⟩
      simp [ihh.2.2.2]
    | malformed => simp [isDataFrame] at hf
    | disconnected => simp [isDataFrame] at hf

theorem websocket_endpoint_registry (reg : Registry)
    (store : ConversationHistory) (client_id : String) (websocket : Nat)
    (ackTs : String) (frames : List (Frame × String)) :
    (websocket_endpoint reg store client_id websocket ackTs frames).registry =
      (wsLoop (connect reg websocket client_id) store client_id
        frames).registry := rfl

theorem websocket_endpoint_loopExited (reg : Registry)
    (store : ConversationHistory) (client_id : String) (websocket : Nat)
    (ackTs : String) (frames : List (Frame × String)) :
    (websocket_endpoint reg store client_id websocket ackTs frames).loopExited =
      (wsLoop (connect reg websocket client_id) store client_id
        frames).loopExited := rfl

theorem websocket_endpoint_sent (reg : Registry)
    (store : ConversationHistory) (client_id : String) (websocket : Nat)
    (ackTs : String) (frames : List (Frame × String)) :
    (websocket_endpoint reg store client_id websocket ackTs frames).sent =
      send_message (connect reg websocket client_id)
          (WsEvent.connectionAck client_id ackTs) client_id ++
        (wsLoop (connect reg websocket client_id) store client_id
          frames).sent := rfl

/-- Sample clock readings used in the concrete instantiations below. -/
def clkA : ChatClock :=
  { idTs := "1700000000.0", userTs := "2023-11-14T22:13:20",
    assistantTs := "2023-11-14T22:13:21",
    responseTs := "2023-11-14T22:13:21" }

/-- Sample stored message used in the concrete instantiations below. -/
def msgA : Message := { role := "user", content := "m", timestamp := "t" }

/-- Generator that raises on every input, standing for any exception
escaping the generation step. -/
def failingGen : String → String → List Message → Except String String :=
  fun _ _ _ => Except.error "boom"

/-- Sample request without a conversation id, used in the concrete
instantiations below. -/
def reqHello : ChatRequest :=
  { message := "Hello", conversation_id := none, model := "quantum-ai" }

/-- Sample request used for the no-rollback instantiation below. -/
def reqPing : ChatRequest :=
  { message := "ping", conversation_id := some "c4", model := "quantum-ai" }

/-! The claims. -/

/-- C1: a sequence of N successful `POST /api/chat` requests that all
supply the same conversation id (run against a store in which that id is
fresh; the empty string is excluded because Python truthiness makes the
handler replace it with a generated id) leaves a history that
`GET /api/history/{id}` returns as exactly 2N messages in call order,
roles alternating user, assistant, user, assistant, ..., with each user
content equal to the request's message and each assistant content equal
to the generated response — the transcript the spec predicts. -/
theorem chat_history_alternating_transcript (cid : String) (hcid : cid ≠ "")
    (store : ConversationHistory) (hfresh : dictFind store cid = none)
    (calls : List (String × String × ChatClock)) :
    (get_history (runChats store cid calls) cid).messages =
      specTranscript calls ∧
    (get_history (runChats store cid calls) cid).messages.length =
      2 * calls.length ∧
    ∀ i : Nat, i < 2 * calls.length →
      (((get_history (runChats store cid calls) cid).messages)[i]?).map
          Message.role =
        some (if i % 2 = 0 then "user" else "assistant") := by
  have hmsgs : (get_history (runChats store cid calls) cid).messages =
      specTranscript calls := by
    rw [get_history_messages, runChats_history cid hcid calls store, hfresh]
    rfl
  refine ⟨hmsgs, ?_, ?_⟩
  · rw [hmsgs, specTranscript_length]
  · intro i hi
    rw [hmsgs]
    exact specTranscript_role calls i hi

theorem chat_history_alternating_transcript_witness :
    (get_history (runChats [] "c1" [("Hello", "quantum-ai", clkA)])
        "c1").messages =
      specTranscript [("Hello", "quantum-ai", clkA)] :=
  (chat_history_alternating_transcript "c1" (by decide) [] rfl
    [("Hello", "quantum-ai", clkA)]).1

/-- C2 is false on the code: `json.loads` raising inside the `while True`
loop escapes to the handler's `except Exception` clause, which logs,
calls `manager.disconnect(client_id)` and ends the handler. At client
"client1" with a trace of one malformed frame, the loop has exited and
the client is no longer registered — the session did not stay open. -/
theorem ws_malformed_keeps_session_counterexample :
    ¬ ((websocket_endpoint [] [] "client1" 0 "t0"
          [(Frame.malformed, "t1")]).loopExited = false ∧
       (dictFind (websocket_endpoint [] [] "client1" 0 "t0"
          [(Frame.malformed, "t1")]).registry "client1").isSome = true) := by
  decide

/-- C2 (amended): when an inbound frame fails to parse, the exception is
caught by the handler (the process does not crash) but the receive loop
does NOT continue: the session terminates at the first malformed frame —
the loop exits, the client is deregistered, frames after the malformed
one are never processed (exactly one ack plus one reply per preceding
valid frame were sent), and the conversation store is untouched. -/
theorem ws_malformed_frame_terminates_session (reg : Registry)
    (store : ConversationHistory) (client_id : String) (websocket : Nat)
    (ackTs ts : String) (pre rest : List (Frame × String))
    (hpre : ∀ p ∈ pre, isDataFrame p.1 = true) :
    (websocket_endpoint reg store client_id websocket ackTs
        (pre ++ (Frame.malformed, ts) :: rest)).loopExited = true ∧
    dictFind (websocket_endpoint reg store client_id websocket ackTs
        (pre ++ (Frame.malformed, ts) :: rest)).registry client_id = none ∧
    (websocket_endpoint reg store client_id websocket ackTs
        (pre ++ (Frame.malformed, ts) :: rest)).store = store ∧
    (websocket_endpoint reg store client_id websocket ackTs
        (pre ++ (Frame.malformed, ts) :: rest)).sent.length =
      pre.length + 1 := by
  have hreg1 :
      (dictFind (connect reg websocket client_id) client_id).isSome = true := by
    rw [connect, dictFind_insert_self]
    rfl
  have hloop := wsLoop_malformed (connect reg websocket client_id) store
    client_id hreg1 pre rest ts hpre
  refine ⟨?_, ?_, ?_, ?_⟩
  · rw [websocket_endpoint_loopExited]
    exact hloop.1
  · rw [websocket_endpoint_registry, hloop.2.1, disconnect,
      dictFind_remove_self]
  · exact websocketEndpoint_store_aux reg store client_id websocket ackTs _
  · rw [websocket_endpoint_sent]
    simp [send_message, hreg1, hloop.2.2.2, Nat.add_comm]

theorem ws_malformed_frame_terminates_session_witness :
    (websocket_endpoint [] [] "client1" 0 "t0"
        ([(Frame.valid (some "hi") none, "t1")] ++
          (Frame.malformed, "t2") :: [])).loopExited = true :=
  (ws_malformed_frame_terminates_session [] [] "client1" 0 "t0" "t2"
    [(Frame.valid (some "hi") none, "t1")] [] (by decide)).1

/-- C3 is false on the code: `broadcast` awaits `send_text` on each
registered channel in turn with no per-channel error handling, so a
raise at one channel aborts the remaining sends. With channels 0 and 1
registered and channel 0 failing, the non-failing channel 1 never
receives the payload. -/
theorem broadcast_isolation_counterexample :
    ¬ (((1 : Nat), "hello") ∈
        (broadcast [("a", 0), ("b", 1)] (fun ws => ws == 0) "hello").1) := by
  decide

/-- C3 (amended): `broadcast` iterates the channels registered at call
time in registration order; if no send fails every registered channel
receives the payload, but an error at one channel aborts the broadcast —
exactly the channels strictly before the first failing one receive the
payload, and the error propagates to the caller. -/
theorem broadcast_stops_at_first_failing_channel (reg : Registry)
    (sendFails : Nat → Bool) (payload : String) (pre post : List Nat)
    (c : Nat) (hreg : reg.map (fun p => p.2) = pre ++ c :: post)
    (hpre : ∀ ws ∈ pre, sendFails ws = false) (hc : sendFails c = true) :
    broadcast reg sendFails payload =
      (pre.map (fun ws => (ws, payload)), some c) ∧
    ∀ reg2 : Registry,
      (∀ ws ∈ reg2.map (fun p => p.2), sendFails ws = false) →
      broadcast reg2 sendFails payload =
        ((reg2.map (fun p => p.2)).map (fun ws => (ws, payload)), none) := by
  constructor
  · rw [broadcast, hreg]
    exact sendAll_failure pre post c sendFails payload hpre hc
  · intro reg2 h2
    rw [broadcast]
    exact sendAll_ok _ sendFails payload h2

theorem broadcast_stops_at_first_failing_channel_witness :
    broadcast [("a", 0), ("b", 1), ("c", 2)] (fun ws => ws == 1) "x" =
      ([(0, "x")], some 1) :=
  (broadcast_stops_at_first_failing_channel [("a", 0), ("b", 1), ("c", 2)]
    (fun ws => ws == 1) "x" [0] [2] 1 rfl (by decide) rfl).1

/-- C4: `POST /api/chat` performs no rollback. If the generation step
raises after the user message was appended, the handler surfaces
`HTTPException(500, detail)` and the stored history of the resolved
conversation id still ends with the user message, with no assistant
message after it. -/
theorem chat_no_rollback_on_generation_failure
    (gen : String → String → List Message → Except String String)
    (store : ConversationHistory) (req : ChatRequest) (clk : ChatClock)
    (err : String)
    (hgen : gen req.message req.model
        ((dictFind store (resolveConversationId req clk.idTs)).getD [] ++
          [{ role := "user", content := req.message,
             timestamp := clk.userTs }]) =
      Except.error err) :
    (chatCore gen store req clk).1 =
      Except.error { status_code := 500, detail := err } ∧
    dictFind (chatCore gen store req clk).2
        (resolveConversationId req clk.idTs) =
      some ((dictFind store (resolveConversationId req clk.idTs)).getD [] ++
        [{ role := "user", content := req.message,
           timestamp := clk.userTs }]) := by
  have hctx : dictFind
      (historyAppend
        (historySetEmpty store (resolveConversationId req clk.idTs))
        (resolveConversationId req clk.idTs)
        { role := "user", content := req.message, timestamp := clk.userTs })
      (resolveConversationId req clk.idTs) =
      some ((dictFind store (resolveConversationId req clk.idTs)).getD [] ++
        [{ role := "user", content := req.message,
           timestamp := clk.userTs }]) := by
    rw [dictFind_historyAppend, dictFind_setEmpty_self]
    simp
  constructor
  · simp only [chatCore, hctx, Option.getD_some, hgen]
  · simp only [chatCore, hctx, Option.getD_some, hgen]

theorem chat_no_rollback_on_generation_failure_witness :
    (chatCore failingGen [] reqPing clkA).1 =
      Except.error { status_code := 500, detail := "boom" } ∧
    dictFind (chatCore failingGen [] reqPing clkA).2
        (resolveConversationId reqPing clkA.idTs) =
      some ((dictFind ([] : ConversationHistory)
          (resolveConversationId reqPing clkA.idTs)).getD [] ++
        [{ role := "user", content := reqPing.message,
           timestamp := clkA.userTs }]) :=
  chat_no_rollback_on_generation_failure failingGen [] reqPing clkA "boom" rfl

/-- C5: `GET /api/history/{conversation_id}` never fails: for every
store and id it answers 200 with the id echoed back; an unknown id
yields an empty message list and a known id yields exactly the stored
messages. -/
theorem get_history_always_ok (store : ConversationHistory) (cid : String) :
    (get_history store cid).status_code = 200 ∧
    (get_history store cid).conversation_id = cid ∧
    (dictFind store cid = none → (get_history store cid).messages = []) ∧
    ∀ msgs, dictFind store cid = some msgs →
      (get_history store cid).messages = msgs := by
  refine ⟨?_, ?_, ?_, ?_⟩
  · cases h : dictFind store cid <;> simp [get_history, h]
  · cases h : dictFind store cid <;> simp [get_history, h]
  · intro h
    simp [get_history, h]
  · intro msgs h
    simp [get_history, h]

theorem get_history_always_ok_witness :
    (get_history [("a", [msgA])] "a").messages = [msgA] ∧
    (get_history [] "missing").messages = [] ∧
    (get_history [] "missing").status_code = 200 :=
  ⟨(get_history_always_ok [("a", [msgA])] "a").2.2.2 [msgA] rfl,
   (get_history_always_ok [] "missing").2.2.1 rfl,
   (get_history_always_ok [] "missing").1⟩

/-- C6: the per-conversation history is append-only. Every operation of
the system — a chat request (with any generator outcome, success or
failure), a history read, a full WebSocket session, a health check or a
stats read — leaves each existing conversation's message sequence equal
to its previous value followed by some (possibly empty) tail: nothing is
removed, mutated or reordered. -/
theorem conversation_history_append_only (store : ConversationHistory)
    (op : Op) (cid : String) (msgs : List Message)
    (h : dictFind store cid = some msgs) :
    ∃ tail, dictFind (applyOp store op) cid = some (msgs ++ tail) := by
  cases op with
  | chatOp gen req clk => exact chatCore_store_extends gen store req clk cid msgs h
  | historyOp x => exact ⟨[], by simpa [applyOp] using h⟩
  | wsOp reg c ws ackTs frames =>
    refine ⟨[], ?_⟩
    simp only [applyOp]
    rw [websocketEndpoint_store_aux]
    simpa using h
  | healthOp reg ts => exact ⟨[], by simpa [applyOp] using h⟩
  | statsOp reg => exact ⟨[], by simpa [applyOp] using h⟩

theorem conversation_history_append_only_witness :
    ∃ tail, dictFind (applyOp [("a", [msgA])] (Op.historyOp "b")) "a" =
      some ([msgA] ++ tail) :=
  conversation_history_append_only [("a", [msgA])] (Op.historyOp "b") "a"
    [msgA] rfl

/-- C7: the WebSocket transport persists no conversation history: for
every inbound trace, the conversation store after the handler runs is
exactly the store before it — only the HTTP chat handler writes
history. -/
theorem websocket_does_not_touch_history (reg : Registry)
    (store : ConversationHistory) (client_id : String) (websocket : Nat)
    (ackTs : String) (frames : List (Frame × String)) :
    (websocket_endpoint reg store client_id websocket ackTs frames).store =
      store :=
  websocketEndpoint_store_aux reg store client_id websocket ackTs frames

/-- C8: a successful `POST /api/chat` request without a conversation id
returns the id `"conv_" ++ <timestamp rendering>`: it is non-empty,
carries the `conv_` prefix, and ids generated from distinct timestamp
values are distinct. -/
theorem chat_generates_conv_prefixed_id (store : ConversationHistory)
    (req : ChatRequest) (clk : ChatClock)
    (h : req.conversation_id = none) :
    (∃ r store2, chat store req clk = (Except.ok r, store2) ∧
      r.conversation_id = "conv_" ++ clk.idTs ∧
      r.conversation_id ≠ "" ∧
      ∃ t, r.conversation_id = "conv_" ++ t) ∧
    ∀ t1 t2 : String, t1 ≠ t2 → ("conv_" ++ t1) ≠ ("conv_" ++ t2) := by
  have hid : resolveConversationId req clk.idTs = "conv_" ++ clk.idTs := by
    simp [resolveConversationId, h]
  have hconv : ∀ t : String, ("conv_" ++ t) ≠ "" := by
    intro t hemp
    have hlen : ("conv_" ++ t).length = 0 := by
      rw [hemp]
      rfl
    rw [String.length_append] at hlen
    have h5 : ("conv_" : String).length = 5 := rfl
    omega
  constructor
  · refine ⟨_, _, rfl, ?_, ?_, ⟨clk.idTs, ?_⟩⟩
    · show resolveConversationId req clk.idTs = "conv_" ++ clk.idTs
      exact hid
    · show resolveConversationId req clk.idTs ≠ ""
      rw [hid]
      exact hconv clk.idTs
    · show resolveConversationId req clk.idTs = "conv_" ++ clk.idTs
      exact hid
  · intro t1 t2 hne heq
    apply hne
    have hdata := congrArg String.data heq
    rw [String.data_append, String.data_append] at hdata
    have hcancel := List.append_cancel_left hdata
    cases t1
    cases t2
    exact congrArg String.mk hcancel

theorem chat_generates_conv_prefixed_id_witness :
    ∃ r store2,
      chat [] reqHello clkA = (Except.ok r, store2) ∧
      r.conversation_id = "conv_" ++ clkA.idTs ∧
      r.conversation_id ≠ "" ∧
      ∃ t, r.conversation_id = "conv_" ++ t :=
  (chat_generates_conv_prefixed_id [] reqHello clkA rfl).1

/-- C9: every `POST /api/chat` request succeeds with the real generator
and its `tokens_used` equals the whitespace-token count of the request
message plus that of the generated response text. -/
theorem chat_tokens_used_is_whitespace_token_sum
    (store : ConversationHistory) (req : ChatRequest) (clk : ChatClock) :
    ∃ r store2, chat store req clk = (Except.ok r, store2) ∧
      r.tokens_used =
        (pySplit req.message).length + (pySplit r.response).length :=
  ⟨_, _, rfl, rfl⟩

/-- C10: the chat handler never consults the model catalog: any request
succeeds (in particular one whose model string is absent from
`supported_models`), the response's `model` field echoes the request's
model string verbatim, and the generated text does not depend on the
model value (nor on the history context). -/
theorem chat_accepts_any_model_string (store : ConversationHistory)
    (req : ChatRequest) (clk : ChatClock) (model2 : String)
    (context context2 : Option (List Message)) :
    (∃ r store2, chat store req clk = (Except.ok r, store2) ∧
      r.model = req.model) ∧
    generate_response req.message req.model context =
      generate_response req.message model2 context2 ∧
    ∀ m : String,
      (supported_models.map (fun p => p.1)).contains m = false →
      ∃ r store2,
        chat store { req with model := m } clk = (Except.ok r, store2) ∧
        r.model = m := by
  refine ⟨⟨_, _, rfl, rfl⟩, rfl, fun m hm => ⟨_, _, rfl, rfl⟩⟩

theorem chat_accepts_any_model_string_witness :
    ∃ r store2,
      chat [] { reqHello with model := "gpt-99" } clkA =
        (Except.ok r, store2) ∧
      r.model = "gpt-99" :=
  (chat_accepts_any_model_string [] reqHello clkA "quantum-pro" none
    none).2.2 "gpt-99" (by decide)

end QuantumTravelAI
